import Mathlib

/-!
Verification of the forecasting subsystem of the zakat predictive-analytics
repository (`backend/time_series_model.py`), as a shallow embedding in Lean.

Numeric values are embedded as exact rationals (`ℚ`); the numpy seeded RNG is
embedded as an abstract stream parameter together with an explicit global RNG
state, so that the effect of `np.random.seed(42)` is visible; Python
`datetime` values are embedded as proleptic-Gregorian civil dates with exact
day arithmetic (`timedelta(days=n)` becomes `addDays`).

The Prophet and scikit-learn libraries are external to the repository. The
scikit-learn `LinearRegression` fit is embedded by its exact mathematical
definition (ordinary least squares, minimum-norm in the degenerate case); the
Prophet fit/predict calls are represented as opaque delegation markers, since
no claim depends on the numeric values Prophet returns - only on the
repository's own control flow around those calls.
-/

namespace ZakatTS

/-! ## Calendar dates

Embedding of Python `datetime.datetime(year, month, day)` (proleptic
Gregorian) and `timedelta(days = n)` addition, via the standard
civil-from-days / days-from-civil conversions. -/

structure Date where
  year : ℤ
  month : ℤ
  day : ℤ
  deriving DecidableEq, Repr

/-- Days since 1970-01-01 of a civil date (proleptic Gregorian). -/
def daysFromCivil (d : Date) : ℤ :=
  let y := if d.month ≤ 2 then d.year - 1 else d.year
  let era := Int.fdiv y 400
  let yoe := y - era * 400
  let mp := Int.emod (d.month + 9) 12
  let doy := (153 * mp + 2) / 5 + d.day - 1
  let doe := yoe * 365 + yoe / 4 - yoe / 100 + doy
  era * 146097 + doe - 719468

/-- Civil date of a count of days since 1970-01-01 (proleptic Gregorian). -/
def civilFromDays (z0 : ℤ) : Date :=
  let z := z0 + 719468
  let era := Int.fdiv z 146097
  let doe := z - era * 146097
  let yoe := (doe - doe / 1460 + doe / 36524 - doe / 146096) / 365
  let y := yoe + era * 400
  let doy := doe - (365 * yoe + yoe / 4 - yoe / 100)
  let mp := (5 * doy + 2) / 153
  let d := doy - (153 * mp + 2) / 5 + 1
  let m := if mp < 10 then mp + 3 else mp - 9
  ⟨if m ≤ 2 then y + 1 else y, m, d⟩

/-- Python `date + timedelta(days = n)`. -/
def addDays (d : Date) (n : ℤ) : Date :=
  civilFromDays (daysFromCivil d + n)

/-- Strict calendar order on first-of-month dates (year, then month). -/
def dateLt (d₁ d₂ : Date) : Prop :=
  d₁.year < d₂.year ∨ (d₁.year = d₂.year ∧ d₁.month < d₂.month)

instance : DecidableRel dateLt := fun d₁ d₂ => by
  unfold dateLt; infer_instance

/-- The first day of the calendar month immediately after `d`'s month. -/
def nextMonth (d : Date) : Date :=
  if d.month = 12 then ⟨d.year + 1, 1, 1⟩ else ⟨d.year, d.month + 1, 1⟩

/-! ## Configuration (source lines 40-52) -/

/-- `RAMADAN_MONTHS` dict: year ↦ approximate Ramadan start month. -/
def RAMADAN_MONTHS (year : ℤ) : Option ℤ :=
  if year = 2020 then some 4
  else if year = 2021 then some 4
  else if year = 2022 then some 4
  else if year = 2023 then some 3
  else if year = 2024 then some 3
  else if year = 2025 then some 2
  else none

def RAMADAN_BOOST : ℚ := 5/2       -- 2.5x during Ramadan
def YEAR_END_BOOST : ℚ := 13/10    -- 1.3x in December
def NORMAL_VARIATION : ℚ := 15/100 -- 15% random variation

/-- `RAMADAN_MONTHS.get(year, 4)` (source line 84). -/
def ramadanMonthOf (year : ℤ) : ℤ :=
  (RAMADAN_MONTHS year).getD 4

/-! ## Rounding

Python `round(x, 2)` is round-half-to-even at two decimal places; embedded
exactly over `ℚ` (the source applies it to floats, whose only deviation from
the exact rational is at representation level, not observable in any claim). -/

/-- Round-half-to-even to an integer. -/
def roundHalfEven (x : ℚ) : ℤ :=
  let f := ⌊x⌋
  let r := x - f
  if r < 1/2 then f
  else if 1/2 < r then f + 1
  else if f % 2 = 0 then f else f + 1

/-- Python `round(x, 2)`. -/
def round2 (x : ℚ) : ℚ := (roundHalfEven (x * 100) : ℚ) / 100

/-! ## Historical data synthesis (source lines 57-111)

`generate_historical_data` seeds the numpy global RNG with 42 and then draws
one `uniform(-NORMAL_VARIATION, NORMAL_VARIATION)` variate per generated
month, in row order. The RNG is embedded as a family `U : ℕ → ℕ → ℚ`
(`U seed i` = the i-th uniform variate the seeded generator yields) together
with an explicit global state `(seed, position)`; `np.random.seed(42)`
replaces that state with `(42, 0)`. -/

structure TimePoint where
  ds : Date
  y : ℚ
  deriving DecidableEq, Repr

/-- The seasonal multiplier applied to the base amount of `(year, month)`:
the `if month == ramadan_month or month == ramadan_month + 1 / elif month in
[11, 12]` ladder of source lines 91-96 (a month that triggers neither branch
keeps the base amount, i.e. multiplier 1). -/
def seasonalBoost (year month : ℤ) : ℚ :=
  let ramadan_month := ramadanMonthOf year
  if month = ramadan_month ∨ month = ramadan_month + 1 then RAMADAN_BOOST
  else if month = 11 ∨ month = 12 then YEAR_END_BOOST
  else 1

/-- One generated month: `yi` years after `start_year`, month `mi + 1`,
consuming the `(12 * yi + mi)`-th uniform variate `u (12 * yi + mi)`
(source lines 86-108). -/
def generatePoint (start_year : ℤ) (u : ℕ → ℚ) (yi mi : ℕ) : TimePoint :=
  let year := start_year + yi
  let month : ℤ := (mi : ℤ) + 1
  let growth_factor : ℚ := 1 + 12/100 * yi
  let variation : ℚ := 1 + u (12 * yi + mi)
  let amount := 150000 * growth_factor * seasonalBoost year month * variation
  { ds := ⟨year, month, 1⟩, y := round2 amount }

/-- The body of `generate_historical_data` after seeding: the nested
`for year / for month` loop, with `u` the seeded uniform stream. -/
def generateRows (u : ℕ → ℚ) (start_year end_year : ℤ) : List TimePoint :=
  ((List.range (end_year + 1 - start_year).toNat).map (fun yi =>
    (List.range 12).map (fun mi => generatePoint start_year u yi mi))).flatten

/-- `generate_historical_data(start_year, end_year)` including its first
statement `np.random.seed(42)`: it takes the incoming numpy global RNG
state, discards it in favour of `(42, 0)`, and returns the rows together
with the RNG state it leaves behind. -/
def generate_historical_data (U : ℕ → ℕ → ℚ) (_rng : ℕ × ℕ)
    (start_year end_year : ℤ) : List TimePoint × (ℕ × ℕ) :=
  let seeded : ℕ × ℕ := (42, 0)
  (generateRows (U seeded.1) start_year end_year,
   (seeded.1, seeded.2 + 12 * (end_year + 1 - start_year).toNat))

/-! ## The forecasting model (source lines 122-260)

`ZakatTimeSeriesModel` holds `model` (the Prophet object or `None`),
`is_fitted`, and - after fallback training - `fallback_model` (the fitted
scikit-learn `LinearRegression`) and `last_month_num`. The Prophet object is
external; it is embedded as a `Bool` flag recording `self.model is not None`.
The fitted linear model is embedded as its exact coefficients
`(intercept, slope)`. -/

structure ZakatTimeSeriesModel where
  hasProphetModel : Bool
  is_fitted : Bool
  fallback_model : Option (ℚ × ℚ)
  last_month_num : ℤ
  deriving DecidableEq, Repr

/-- `ZakatTimeSeriesModel.__init__` (source lines 133-136). -/
def initModel : ZakatTimeSeriesModel :=
  { hasProphetModel := false, is_fitted := false,
    fallback_model := none, last_month_num := 0 }

/-- Exact ordinary least squares of `ys` against x-values `0, 1, ..., n-1`,
returning `(intercept, slope)` - the mathematical content of
`sklearn.linear_model.LinearRegression().fit(X, y)` on this design matrix
(lstsq; in the degenerate one-point case the centered design is all-zero and
the minimum-norm solution has slope 0 and intercept the mean). `none` iff the
series is empty, where scikit-learn raises. -/
def fitOLS (ys : List ℚ) : Option (ℚ × ℚ) :=
  if ys.length = 0 then none
  else
    let n : ℚ := ys.length
    let xs : List ℚ := (List.range ys.length).map (fun i => (i : ℚ))
    let sx := xs.sum
    let sy := ys.sum
    let sxx := (xs.map (fun x => x * x)).sum
    let sxy := ((xs.zip ys).map (fun p => p.1 * p.2)).sum
    let denom := n * sxx - sx * sx
    if denom = 0 then some (sy / n, 0)
    else
      let slope := (n * sxy - sx * sy) / denom
      some ((sy - slope * sx) / n, slope)

/-- Errors the training path can raise. `insufficientData` is the
`InsufficientDataError` named by the specification; it appears here so the
spec's claim about it can be stated, and the theorems show the source never
produces it (no such class exists in the repository and `train` performs no
series-length validation). `emptySeriesFit` is the scikit-learn error on
fitting an empty design matrix. -/
inductive TrainError where
  | insufficientData
  | emptySeriesFit
  deriving DecidableEq, Repr

/-- `ZakatTimeSeriesModel.train(df)` (source lines 138-172).
When Prophet is available the method builds a Prophet model, adds the
`ramadan_cycle` seasonality and calls `fit` - with no validation of the
series length and no raise statement of its own; the fit is delegated to the
external library, recorded here by `hasProphetModel := true`. When Prophet
is unavailable it runs `_train_fallback` (source lines 174-188), which fits
the linear regression and sets `last_month_num = len(df) - 1`. -/
def train (prophetAvailable : Bool) (m : ZakatTimeSeriesModel) (ys : List ℚ) :
    Except TrainError ZakatTimeSeriesModel :=
  if prophetAvailable then
    .ok { m with hasProphetModel := true, is_fitted := true }
  else
    match fitOLS ys with
    | some f =>
        .ok { m with is_fitted := true, fallback_model := some f,
                     last_month_num := (ys.length : ℤ) - 1 }
    | none => .error .emptySeriesFit

/-- A forecast row: `date`, `forecast`, `lower_bound`, `upper_bound`. -/
structure ForecastPoint where
  date : Date
  forecast : ℚ
  lower_bound : ℚ
  upper_bound : ℚ
  deriving DecidableEq, Repr

/-- `ZakatTimeSeriesModel._predict_fallback(periods)` for a fitted linear
model `f = (intercept, slope)` (source lines 218-238): predictions at month
indices `last_month_num + 1, ..., last_month_num + periods`, bounds a fixed
±15% envelope, and dates `datetime(2024, 12, 1) + timedelta(days = 30 * i)`
for `i = 1, ..., periods`. -/
def predictFallbackFit (f : ℚ × ℚ) (last_month_num : ℤ) (periods : ℕ) :
    List ForecastPoint :=
  (List.range periods).map (fun i =>
    let x : ℚ := ((last_month_num + 1 + i : ℤ) : ℚ)
    let pred := f.1 + f.2 * x
    { date := addDays ⟨2024, 12, 1⟩ (30 * ((i : ℤ) + 1)),
      forecast := pred,
      lower_bound := pred * (85/100),
      upper_bound := pred * (115/100) })

/-- Errors `predict` can raise: the `ValueError("Model not trained. Call
train() first.")` at source lines 200-201 (the specification's
`ModelNotTrainedError`), and the Python `AttributeError` that would occur if
the fallback branch ran on a model whose `fallback_model` attribute was
never set. -/
inductive PredictError where
  | modelNotTrained
  | missingFallbackModel
  deriving DecidableEq, Repr

/-- Result of `predict`: either delegated to the external Prophet
`model.predict` (source lines 203-214), or the concrete rows of
`_predict_fallback`. -/
inductive PredictResult where
  | prophetForecast
  | points (pts : List ForecastPoint)
  deriving DecidableEq, Repr

/-- `ZakatTimeSeriesModel.predict(periods)` (source lines 190-216). -/
def predict (prophetAvailable : Bool) (m : ZakatTimeSeriesModel)
    (periods : ℕ) : Except PredictError PredictResult :=
  if m.is_fitted = false then .error .modelNotTrained
  else if prophetAvailable && m.hasProphetModel then .ok .prophetForecast
  else
    match m.fallback_model with
    | some f => .ok (.points (predictFallbackFit f m.last_month_num periods))
    | none => .error .missingFallbackModel

/-! ## API helpers (source lines 265-343) -/

/-- The `model_info` sub-payload built at source lines 338-342. -/
structure ModelInfo where
  type : String
  seasonality : List String
  confidence_level : ℚ
  deriving DecidableEq, Repr

def model_info (prophetAvailable : Bool) : ModelInfo :=
  { type := if prophetAvailable then "Prophet" else "Linear Regression (Fallback)",
    seasonality := if prophetAvailable then ["yearly", "ramadan_cycle"] else ["none"],
    confidence_level := 8/10 }

/-- `historical_df.tail(12)['y'].sum()` (source line 324). -/
def last_year_sum (ys : List ℚ) : ℚ :=
  (ys.drop (ys.length - 12)).sum

/-- `historical_df.iloc[-24:-12]['y'].sum()` for series of length ≥ 24
(source line 325). -/
def prior_year_sum (ys : List ℚ) : ℚ :=
  ((ys.drop (ys.length - 24)).take 12).sum

/-- The year-over-year growth computation of `get_forecast_data`
(source lines 323-326), before the `round(·, 1)` applied at the payload
boundary. -/
def yoy_growth (ys : List ℚ) : ℚ :=
  let last_year := last_year_sum ys
  let prev_year := if 24 ≤ ys.length then prior_year_sum ys else last_year
  if 0 < prev_year then (last_year - prev_year) / prev_year * 100 else 0

/-! ## Spec-side definitions (for refinement statements) -/

/-- Spec-side enumeration of the calendar months of `[start_year, end_year]`
inclusive, in ascending order, one first-of-month date per month: the shape
the specification requires of the synthesized series' dates. -/
def specMonthDates (start_year end_year : ℤ) : List Date :=
  ((List.range (end_year + 1 - start_year).toNat).map (fun (yi : ℕ) =>
    (List.range 12).map (fun (mi : ℕ) =>
      (⟨start_year + (yi : ℤ), (mi : ℤ) + 1, 1⟩ : Date)))).flatten

/-! ## Generic helper lemmas -/

theorem generatePoint_ds (s : ℤ) (u : ℕ → ℚ) (yi mi : ℕ) :
    (generatePoint s u yi mi).ds = ⟨s + yi, (mi : ℤ) + 1, 1⟩ := rfl

theorem round2_mul_100_den (x : ℚ) : (round2 x * 100).den = 1 := by
  unfold round2
  rw [div_mul_cancel₀ _ (by norm_num : (100 : ℚ) ≠ 0)]
  exact Rat.den_intCast _

theorem fitOLS_of_ne_nil (ys : List ℚ) (h : ys ≠ []) :
    ∃ f, fitOLS ys = some f := by
  simp only [fitOLS, if_neg (show ¬ys.length = 0 by simpa using h)]
  split_ifs <;> exact ⟨_, rfl⟩

theorem addDays_2024_12_1_30 :
    addDays ⟨2024, 12, 1⟩ 30 = ⟨2024, 12, 31⟩ := by decide

theorem dateLt_trans : Transitive dateLt := by
  intro a b c hab hbc
  unfold dateLt at *
  omega

theorem chain'_innerYear (u : ℕ → ℚ) (s : ℤ) (yi : ℕ) :
    List.Chain' (fun p q => dateLt p.ds q.ds ∧ q.ds = nextMonth p.ds)
      ((List.range 12).map (fun mi => generatePoint s u yi mi)) := by
  rw [List.chain'_map]
  rw [show (12 : ℕ) = 11 + 1 from rfl, List.chain'_range_succ]
  intro m hm
  rw [generatePoint_ds, generatePoint_ds]
  constructor
  · right
    exact ⟨rfl, by push_cast; omega⟩
  · unfold nextMonth
    rw [if_neg (by push_cast; omega)]
    simp only [Date.mk.injEq]
    refine ⟨trivial, by push_cast; ring, trivial⟩

theorem chain'_rows (u : ℕ → ℚ) (s e : ℤ) :
    List.Chain' (fun p q => dateLt p.ds q.ds ∧ q.ds = nextMonth p.ds)
      (generateRows u s e) := by
  unfold generateRows
  rw [List.chain'_flatten (by simp)]
  refine ⟨?_, ?_⟩
  · intro l hl
    simp only [List.mem_map, List.mem_range] at hl
    obtain ⟨yi, -, rfl⟩ := hl
    exact chain'_innerYear u s yi
  · rw [List.chain'_map]
    cases h : (e + 1 - s).toNat with
    | zero => simp
    | succ k =>
        rw [List.chain'_range_succ]
        intro m hm x hx y hy
        simp only [List.getLast?_map] at hx
        simp only [List.head?_map] at hy
        rw [show (List.range 12).getLast? = some 11 from by decide] at hx
        rw [show (List.range 12).head? = some 0 from by decide] at hy
        simp only [Option.map_some, Option.map_some', Option.mem_def,
          Option.some.injEq] at hx hy
        subst hx
        subst hy
        rw [generatePoint_ds, generatePoint_ds]
        constructor
        · left
          push_cast
          omega
        · unfold nextMonth
          rw [if_pos (by norm_num)]
          simp only [Date.mk.injEq]
          refine ⟨by push_cast; ring, by norm_num, trivial⟩

theorem rows_ds_nodup (u : ℕ → ℚ) (s e : ℤ) :
    ((generateRows u s e).map (·.ds)).Nodup := by
  haveI : IsTrans TimePoint (fun p q => dateLt p.ds q.ds) :=
    ⟨fun a b c hab hbc => dateLt_trans hab hbc⟩
  have hc : List.Chain' (fun p q : TimePoint => dateLt p.ds q.ds)
      (generateRows u s e) :=
    (chain'_rows u s e).imp (fun _ _ h => h.1)
  rw [List.chain'_iff_pairwise] at hc
  have hp : List.Pairwise dateLt ((generateRows u s e).map (·.ds)) :=
    List.pairwise_map.mpr hc
  refine hp.imp ?_
  intro a b hab heq
  subst heq
  unfold dateLt at hab
  omega

theorem mem_rows_ds (u : ℕ → ℚ) (s e y m : ℤ) (h : s ≤ e) :
    ((⟨y, m, 1⟩ : Date) ∈ (generateRows u s e).map (·.ds)) ↔
      (s ≤ y ∧ y ≤ e ∧ 1 ≤ m ∧ m ≤ 12) := by
  simp only [generateRows, List.map_flatten, List.map_map, List.mem_flatten,
    List.mem_map, List.mem_range, Function.comp_def, generatePoint_ds,
    Date.mk.injEq]
  constructor
  · rintro ⟨l, ⟨a, ha, rfl⟩, hd⟩
    simp only [List.mem_map, List.mem_range, Date.mk.injEq] at hd
    obtain ⟨mi, hmi, hy, hm, -⟩ := hd
    omega
  · rintro ⟨h1, h2, h3, h4⟩
    refine ⟨_, ⟨(y - s).toNat, by omega, rfl⟩, ?_⟩
    simp only [List.mem_map, List.mem_range, Date.mk.injEq]
    exact ⟨(m - 1).toNat, by omega, by omega, by omega, by trivial⟩

theorem rows_head (u : ℕ → ℚ) (s e : ℤ) (h : s ≤ e) :
    ((generateRows u s e).head?).map (·.ds) = some ⟨s, 1, 1⟩ := by
  unfold generateRows
  obtain ⟨k, hk⟩ : ∃ k, (e + 1 - s).toNat = k + 1 := ⟨(e - s).toNat, by omega⟩
  rw [hk, show List.range (k+1) = 0 :: List.map Nat.succ (List.range k) from
    List.range_succ_eq_map k]
  rw [List.map_cons, List.flatten_cons]
  rw [List.head?_append_of_ne_nil _ (by simp)]
  rw [List.head?_map, show (List.range 12).head? = some 0 from by decide]
  simp [generatePoint_ds]

/-! ## Claims -/

/-- C9: for every model instance in the Untrained state (`is_fitted` still
`False`, as set by `__init__` and only ever changed by `train`), `predict`
fails with the model-not-trained error (the `ValueError("Model not trained.
Call train() first.")` of source lines 200-201) regardless of Prophet
availability and of the requested horizon, and produces no forecast. -/
theorem C9_predict_untrained (prophetAvailable : Bool)
    (m : ZakatTimeSeriesModel) (periods : ℕ) (h : m.is_fitted = false) :
    predict prophetAvailable m periods = .error .modelNotTrained := by
  unfold predict
  rw [h]
  simp

/-- Witness for C9 at the freshly constructed model and `periods = 12`. -/
theorem C9_witness :
    initModel.is_fitted = false ∧
    predict true initModel 12 = .error .modelNotTrained :=
  ⟨rfl, C9_predict_untrained true initModel 12 rfl⟩

/-- C10: for every year outside the configured `RAMADAN_MONTHS` table (any
year other than 2020-2025), the synthesizer still applies the peak-season
boost, with April (month 4) as the default peak month from
`RAMADAN_MONTHS.get(year, 4)`; months 4 and 5 of such a year get the
`RAMADAN_BOOST` multiplier (which exceeds 2), and generation for such a year
still yields its 12 points. -/
theorem C10_default_peak_month (u : ℕ → ℚ) (year : ℤ)
    (h : year < 2020 ∨ 2025 < year) :
    ramadanMonthOf year = 4 ∧
    seasonalBoost year 4 = RAMADAN_BOOST ∧
    seasonalBoost year 5 = RAMADAN_BOOST ∧
    2 < RAMADAN_BOOST ∧
    (generateRows u year year).length = 12 := by
  have hrm : ramadanMonthOf year = 4 := by
    unfold ramadanMonthOf RAMADAN_MONTHS
    split_ifs <;> simp_all
  refine ⟨hrm, ?_, ?_, by norm_num [RAMADAN_BOOST], ?_⟩
  · unfold seasonalBoost
    rw [hrm]
    norm_num
  · unfold seasonalBoost
    rw [hrm]
    norm_num
  · show (((List.range (year + 1 - year).toNat).map _).flatten).length = 12
    have h1 : (year + 1 - year) = 1 := by omega
    rw [h1]
    have h2 : List.range 1 = [0] := rfl
    simp [h2, Function.comp]

/-- Witness for C10 at year 2026 (not in the table). -/
theorem C10_witness :
    ((2026 : ℤ) < 2020 ∨ (2025 : ℤ) < 2026) ∧
    ramadanMonthOf 2026 = 4 ∧ seasonalBoost 2026 4 = RAMADAN_BOOST :=
  ⟨by decide,
   (C10_default_peak_month (fun _ => 0) 2026 (by decide)).1,
   (C10_default_peak_month (fun _ => 0) 2026 (by decide)).2.1⟩

/-- C5: characterization of the seasonal multiplier for every year and
month: the multiplier exceeds 2 exactly on the designated peak month and the
immediately following month (where it is `RAMADAN_BOOST = 2.5`); it equals
the year-end boost exactly on months 11 and 12 of a year when the
peak-season boost does not apply to that month; and no month ever receives
the combination of the two boosts - peak season takes precedence. -/
theorem C5_boost_precedence (year month : ℤ) :
    (2 < seasonalBoost year month ↔
      (month = ramadanMonthOf year ∨ month = ramadanMonthOf year + 1)) ∧
    ((month = ramadanMonthOf year ∨ month = ramadanMonthOf year + 1) →
      seasonalBoost year month = RAMADAN_BOOST) ∧
    (seasonalBoost year month = YEAR_END_BOOST ↔
      ((month = 11 ∨ month = 12) ∧
        ¬(month = ramadanMonthOf year ∨ month = ramadanMonthOf year + 1))) ∧
    seasonalBoost year month ≠ RAMADAN_BOOST * YEAR_END_BOOST := by
  have hb : seasonalBoost year month =
      (if month = ramadanMonthOf year ∨ month = ramadanMonthOf year + 1 then
        RAMADAN_BOOST
      else if month = 11 ∨ month = 12 then YEAR_END_BOOST else 1) := rfl
  by_cases h1 : month = ramadanMonthOf year ∨ month = ramadanMonthOf year + 1
  · rw [hb, if_pos h1]
    norm_num [RAMADAN_BOOST, YEAR_END_BOOST, h1]
  · rw [hb, if_neg h1]
    by_cases h2 : month = 11 ∨ month = 12
    · rw [if_pos h2]
      norm_num [RAMADAN_BOOST, YEAR_END_BOOST, h1, h2]
    · rw [if_neg h2]
      norm_num [RAMADAN_BOOST, YEAR_END_BOOST, h1, h2]

/-- Witness for C5 (the hypothesis inside the second conjunct) at year 2023,
month 3 (the table's peak month for 2023). -/
theorem C5_witness :
    ((3 : ℤ) = ramadanMonthOf 2023 ∨ (3 : ℤ) = ramadanMonthOf 2023 + 1) ∧
    seasonalBoost 2023 3 = RAMADAN_BOOST :=
  ⟨by decide, (C5_boost_precedence 2023 3).2.1 (by decide)⟩

/-- C1 counterexample: the claimed invariant `lower_bound <= point_estimate
<= upper_bound` fails on the code. Training the fallback on the two-point
series `[100, 0]` fits the line `100 - 100 x`; the one-period forecast is
`-100`, and the ±15% envelope of source lines 234-235 inverts on negative
estimates: `lower_bound = -85 > -100 = forecast`. -/
theorem C1_counterexample :
    train false initModel [100, 0] =
      .ok { hasProphetModel := false, is_fitted := true,
            fallback_model := some (100, -100), last_month_num := 1 } ∧
    predict false
      { hasProphetModel := false, is_fitted := true,
        fallback_model := some (100, -100), last_month_num := 1 } 1 =
      .ok (.points [{ date := ⟨2024, 12, 31⟩, forecast := -100,
                      lower_bound := -85, upper_bound := -115 }]) ∧
    ∃ p ∈ predictFallbackFit (100, -100) 1 1,
      ¬(p.lower_bound ≤ p.forecast ∧ p.forecast ≤ p.upper_bound) := by
  have he : predictFallbackFit (100, -100) 1 1 =
      [{ date := ⟨2024, 12, 31⟩, forecast := -100,
         lower_bound := -85, upper_bound := -115 }] := by
    norm_num [predictFallbackFit, List.range_succ, addDays_2024_12_1_30]
  refine ⟨by norm_num [train, initModel, fitOLS, List.range_succ], ?_, ?_⟩
  · simp [predict, he]
  · rw [he]
    exact ⟨_, List.mem_singleton_self _, by norm_num⟩

/-- C1 (amended): for the linear-fallback strategy, every forecast point
with a nonnegative point estimate satisfies
`lower_bound <= forecast <= upper_bound`; on a negative point estimate the
±15% envelope inverts (see the counterexample). -/
theorem C1_fallback_bounds_ordered (f : ℚ × ℚ) (last_month_num : ℤ)
    (periods : ℕ) (p : ForecastPoint)
    (hp : p ∈ predictFallbackFit f last_month_num periods)
    (hnn : 0 ≤ p.forecast) :
    p.lower_bound ≤ p.forecast ∧ p.forecast ≤ p.upper_bound := by
  simp only [predictFallbackFit, List.mem_map, List.mem_range] at hp
  obtain ⟨i, hi, rfl⟩ := hp
  dsimp only at hnn ⊢
  constructor <;> nlinarith

/-- Witness for C1 (amended) at the fit `(1, 0)`, one period. -/
theorem C1_witness :
    ({ date := ⟨2024, 12, 31⟩, forecast := 1, lower_bound := 85/100,
       upper_bound := 115/100 } : ForecastPoint) ∈ predictFallbackFit (1, 0) 0 1 ∧
    (0 : ℚ) ≤ 1 ∧
    (85/100 : ℚ) ≤ 1 ∧ (1 : ℚ) ≤ 115/100 := by
  have he : predictFallbackFit (1, 0) 0 1 =
      [{ date := ⟨2024, 12, 31⟩, forecast := 1, lower_bound := 85/100,
         upper_bound := 115/100 }] := by
    norm_num [predictFallbackFit, List.range_succ, addDays_2024_12_1_30]
  have hm : ({ date := ⟨2024, 12, 31⟩, forecast := 1, lower_bound := 85/100,
               upper_bound := 115/100 } : ForecastPoint) ∈
      predictFallbackFit (1, 0) 0 1 := by
    rw [he]
    exact List.mem_singleton_self _
  exact ⟨hm, by norm_num,
    C1_fallback_bounds_ordered (1, 0) 0 1 _ hm (by norm_num)⟩

/-- C2 counterexample: the payload's `model_info.type` is never one of the
documented values `"seasonal"` / `"linear-fallback"`: the source emits
`"Linear Regression (Fallback)"` (fallback) and `"Prophet"` (seasonal)
at source line 339. -/
theorem C2_counterexample :
    (model_info false).type = "Linear Regression (Fallback)" ∧
    ¬((model_info false).type = "seasonal" ∨
      (model_info false).type = "linear-fallback") ∧
    ¬((model_info true).type = "seasonal" ∨
      (model_info true).type = "linear-fallback") := by
  decide

/-- C2 (amended): when the seasonal engine is unavailable the payload's
`model_info.type` reports the fallback as `"Linear Regression (Fallback)"`
(and `"Prophet"` when it is available), and every fallback forecast point's
bounds satisfy `upper_bound = 1.15 * point_estimate` and
`lower_bound = 0.85 * point_estimate` exactly. -/
theorem C2_fallback_reporting (f : ℚ × ℚ) (last_month_num : ℤ)
    (periods : ℕ) (p : ForecastPoint)
    (hp : p ∈ predictFallbackFit f last_month_num periods) :
    (model_info false).type = "Linear Regression (Fallback)" ∧
    (model_info true).type = "Prophet" ∧
    p.upper_bound = (115/100) * p.forecast ∧
    p.lower_bound = (85/100) * p.forecast := by
  simp only [predictFallbackFit, List.mem_map, List.mem_range] at hp
  obtain ⟨i, hi, rfl⟩ := hp
  refine ⟨rfl, rfl, ?_, ?_⟩ <;> dsimp only <;> ring

/-- Witness for C2 (amended) at the fit `(1, 0)`, one period. -/
theorem C2_witness :
    ({ date := ⟨2024, 12, 31⟩, forecast := 1, lower_bound := 85/100,
       upper_bound := 115/100 } : ForecastPoint) ∈ predictFallbackFit (1, 0) 0 1 ∧
    (model_info false).type = "Linear Regression (Fallback)" ∧
    (115/100 : ℚ) = 115/100 * 1 ∧ (85/100 : ℚ) = 85/100 * 1 := by
  have he : predictFallbackFit (1, 0) 0 1 =
      [{ date := ⟨2024, 12, 31⟩, forecast := 1, lower_bound := 85/100,
         upper_bound := 115/100 }] := by
    norm_num [predictFallbackFit, List.range_succ, addDays_2024_12_1_30]
  have hm : ({ date := ⟨2024, 12, 31⟩, forecast := 1, lower_bound := 85/100,
               upper_bound := 115/100 } : ForecastPoint) ∈
      predictFallbackFit (1, 0) 0 1 := by
    rw [he]
    exact List.mem_singleton_self _
  have hc := C2_fallback_reporting (1, 0) 0 1 _ hm
  exact ⟨hm, hc.1, hc.2.2.1, hc.2.2.2⟩

/-- C4 counterexample: training on a 23-point series raises no error under
either strategy. With Prophet available, `train` performs no series-length
validation and delegates to the external fit; without Prophet, the fallback
fits the constant line `y = 1`. No `InsufficientDataError` exists anywhere
in the repository. -/
theorem C4_counterexample :
    train true initModel (List.replicate 23 1) =
      .ok { hasProphetModel := true, is_fitted := true,
            fallback_model := none, last_month_num := 0 } ∧
    train false initModel (List.replicate 23 1) =
      .ok { hasProphetModel := false, is_fitted := true,
            fallback_model := some (1, 0), last_month_num := 22 } := by
  constructor
  · rfl
  · norm_num [train, initModel, fitOLS, List.replicate, List.range_succ]

/-- C4 (amended): training enforces no minimum series length and never
raises the specification's `InsufficientDataError`: on any non-empty series
it succeeds under either strategy, and in particular the fallback trains
successfully and marks the model fitted. -/
theorem C4_no_minimum_length (prophetAvailable : Bool)
    (m : ZakatTimeSeriesModel) (ys : List ℚ) (h : ys ≠ []) :
    (∀ e, train prophetAvailable m ys ≠ .error e) ∧
    ∃ m', train false m ys = .ok m' ∧ m'.is_fitted = true := by
  obtain ⟨f, hf⟩ := fitOLS_of_ne_nil ys h
  refine ⟨fun e => ?_,
    ⟨{ m with is_fitted := true, fallback_model := some f,
              last_month_num := (ys.length : ℤ) - 1 }, ?_, rfl⟩⟩
  · cases prophetAvailable <;> simp [train, hf]
  · simp [train, hf]

/-- Witness for C4 (amended) at the one-point series `[5]`. -/
theorem C4_witness :
    ([5] : List ℚ) ≠ [] ∧
    ∃ m', train false initModel [5] = .ok m' ∧ m'.is_fitted = true :=
  ⟨by simp, (C4_no_minimum_length false initModel [5] (by simp)).2⟩

/-- C8: the year-over-year growth of the summary equals
`(last_12_months_sum - prior_12_months_sum) / prior_12_months_sum * 100`
whenever the series has at least 24 points and the prior-year sum is
positive, and is 0 (never undefined) when the prior-year sum is zero or the
series has fewer than 24 points (source lines 323-326). -/
theorem C8_yoy_growth_cases (ys : List ℚ) :
    (24 ≤ ys.length → 0 < prior_year_sum ys →
      yoy_growth ys =
        (last_year_sum ys - prior_year_sum ys) / prior_year_sum ys * 100) ∧
    (24 ≤ ys.length → prior_year_sum ys = 0 → yoy_growth ys = 0) ∧
    (ys.length < 24 → yoy_growth ys = 0) := by
  simp only [yoy_growth]
  refine ⟨fun h24 hpos => ?_, fun h24 h0 => ?_, fun hlt => ?_⟩
  · rw [if_pos h24, if_pos hpos]
  · rw [if_pos h24, h0]
    norm_num
  · have hprev : (if 24 ≤ ys.length then prior_year_sum ys else last_year_sum ys) =
        last_year_sum ys := if_neg (by omega)
    rw [hprev]
    split_ifs with h
    · rw [sub_self, zero_div, zero_mul]
    · rfl

/-- Witness for C8 at a 24-point series with positive prior-year sum, a
24-point all-zero series, and a 23-point series. -/
theorem C8_witness :
    yoy_growth (List.replicate 12 (1:ℚ) ++ List.replicate 12 (2:ℚ)) =
      (last_year_sum (List.replicate 12 (1:ℚ) ++ List.replicate 12 (2:ℚ)) -
          prior_year_sum (List.replicate 12 (1:ℚ) ++ List.replicate 12 (2:ℚ))) /
        prior_year_sum (List.replicate 12 (1:ℚ) ++ List.replicate 12 (2:ℚ)) * 100 ∧
    yoy_growth (List.replicate 24 (0:ℚ)) = 0 ∧
    yoy_growth (List.replicate 23 (1:ℚ)) = 0 :=
  ⟨(C8_yoy_growth_cases _).1 (by simp) (by norm_num [prior_year_sum]),
   (C8_yoy_growth_cases _).2.1 (by simp) (by norm_num [prior_year_sum]),
   (C8_yoy_growth_cases _).2.2 (by simp)⟩

/-- C3 (code bug, fallback path): after training the fallback on a 60-point
series (the 2020-2024 scenario length, `last_month_num = 59`), the 12-period
forecast does produce 12 points, but their dates are
`datetime(2024, 12, 1) + timedelta(days = 30 * i)` (source lines 228-229):
2024-12-31, 2025-01-30, 2025-03-01, ... - not the claimed contiguous
calendar months 2025-01-01, 2025-02-01, ..., 2025-12-01 (February 2025 gets
no point at all, March gets two). -/
theorem C3_fallback_dates_bug :
    train false initModel (List.replicate 60 1) =
      .ok { hasProphetModel := false, is_fitted := true,
            fallback_model := some (1, 0), last_month_num := 59 } ∧
    predict false
      { hasProphetModel := false, is_fitted := true,
        fallback_model := some (1, 0), last_month_num := 59 } 12 =
      .ok (.points (predictFallbackFit (1, 0) 59 12)) ∧
    (predictFallbackFit (1, 0) 59 12).length = 12 ∧
    (predictFallbackFit (1, 0) 59 12).map (fun p => p.date) =
      [⟨2024, 12, 31⟩, ⟨2025, 1, 30⟩, ⟨2025, 3, 1⟩, ⟨2025, 3, 31⟩,
       ⟨2025, 4, 30⟩, ⟨2025, 5, 30⟩, ⟨2025, 6, 29⟩, ⟨2025, 7, 29⟩,
       ⟨2025, 8, 28⟩, ⟨2025, 9, 27⟩, ⟨2025, 10, 27⟩, ⟨2025, 11, 26⟩] ∧
    (predictFallbackFit (1, 0) 59 12).map (fun p => p.date) ≠
      [⟨2025, 1, 1⟩, ⟨2025, 2, 1⟩, ⟨2025, 3, 1⟩, ⟨2025, 4, 1⟩,
       ⟨2025, 5, 1⟩, ⟨2025, 6, 1⟩, ⟨2025, 7, 1⟩, ⟨2025, 8, 1⟩,
       ⟨2025, 9, 1⟩, ⟨2025, 10, 1⟩, ⟨2025, 11, 1⟩, ⟨2025, 12, 1⟩] := by
  refine ⟨?_, by simp [predict], by decide, by decide, by decide⟩
  norm_num [train, initModel, fitOLS, List.replicate, List.range_succ]

/-- C6: for every noise stream and every `start_year <= end_year`, the
synthesized series has exactly `12 * (end_year - start_year + 1)` points
whose dates are exactly the spec-side enumeration of the calendar months of
the range; consecutive points step by exactly one calendar month (strictly
ascending, no gaps, no duplicates), the first point is January of
`start_year`, a first-of-month date `(y, m, 1)` occurs iff it lies in the
range (together with `Nodup`: exactly one point per month), every date is a
first-of-month, and every value is an exact multiple of 0.01 (rounded to 2
decimal places). -/
theorem C6_series_structure (U : ℕ → ℕ → ℚ) (rng : ℕ × ℕ) (u : ℕ → ℚ)
    (s e : ℤ) (h : s ≤ e) :
    (generate_historical_data U rng s e).1 = generateRows (U 42) s e ∧
    (generateRows u s e).length = 12 * (e + 1 - s).toNat ∧
    (generateRows u s e).map (·.ds) = specMonthDates s e ∧
    List.Chain' (fun p q => dateLt p.ds q.ds ∧ q.ds = nextMonth p.ds)
      (generateRows u s e) ∧
    ((generateRows u s e).map (·.ds)).Nodup ∧
    ((generateRows u s e).head?).map (·.ds) = some ⟨s, 1, 1⟩ ∧
    (∀ y m : ℤ, ((⟨y, m, 1⟩ : Date) ∈ (generateRows u s e).map (·.ds)) ↔
      (s ≤ y ∧ y ≤ e ∧ 1 ≤ m ∧ m ≤ 12)) ∧
    (∀ p ∈ generateRows u s e, p.ds.day = 1 ∧ (p.y * 100).den = 1) := by
  refine ⟨rfl, by simp [generateRows, Function.comp_def, mul_comm],
    by simp only [generateRows, specMonthDates, List.map_flatten, List.map_map,
      Function.comp_def, generatePoint_ds],
    chain'_rows u s e, rows_ds_nodup u s e, rows_head u s e h,
    fun y m => mem_rows_ds u s e y m h, ?_⟩
  intro p hp
  simp only [generateRows, List.mem_flatten, List.mem_map, List.mem_range] at hp
  obtain ⟨l, ⟨yi, -, rfl⟩, hp⟩ := hp
  simp only [List.mem_map, List.mem_range] at hp
  obtain ⟨mi, -, rfl⟩ := hp
  exact ⟨rfl, round2_mul_100_den _⟩

/-- Witness for C6 at the 2020-2024 default range with the zero noise
stream: 60 points, headed by 2020-01-01. -/
theorem C6_witness :
    (2020 : ℤ) ≤ 2024 ∧
    (generateRows (fun _ => 0) 2020 2024).length =
      12 * ((2024 : ℤ) + 1 - 2020).toNat ∧
    ((generateRows (fun _ => 0) 2020 2024).head?).map (·.ds) =
      some ⟨2020, 1, 1⟩ :=
  ⟨by decide,
   (C6_series_structure (fun _ _ => 0) (0, 0) (fun _ => 0) 2020 2024
     (by decide)).2.1,
   (C6_series_structure (fun _ _ => 0) (0, 0) (fun _ => 0) 2020 2024
     (by decide)).2.2.2.2.2.1⟩

/-- C7: synthesis is deterministic. `generate_historical_data` begins by
re-seeding the global RNG (`np.random.seed(42)`, source line 74), so its
output does not depend on the incoming RNG state: two calls with identical
`start_year`, `end_year` - in particular a call repeated immediately after
another - produce identical series, dates and values alike. -/
theorem C7_synthesis_deterministic (U : ℕ → ℕ → ℚ) (rng₁ rng₂ : ℕ × ℕ)
    (s e : ℤ) :
    (generate_historical_data U rng₁ s e).1 =
      (generate_historical_data U rng₂ s e).1 ∧
    (generate_historical_data U (generate_historical_data U rng₁ s e).2 s e).1 =
      (generate_historical_data U rng₁ s e).1 :=
  ⟨rfl, rfl⟩

end ZakatTS
